import Mathlib

/-!
Verification of the policy-resolution core of `artifactory_cleanup/loaders.py`:
the rule registry (`RuleRegistry`), the structured-definition loader
(`YamlConfigLoader`) and the extension-file loader (`PythonPoliciesLoader`).

The Python code is embedded shallowly:

* YAML documents (the result of `yaml.safe_load`) are the inductive `Yaml`.
* Python exceptions that can reach this code are the inductive `PyErr`;
  fallible code returns `Except PyErr _`.  The spec names abstract error
  taxa (`DefinitionFormatError`, `UnknownRuleError`,
  `RuleConstructionError`); the code raises builtin exceptions, so each
  taxon is identified with the concrete error kinds the code surfaces.
* A Python rule class is a `RuleType`: `rid` models object identity of the
  class (distinct classes get distinct `rid`s, so `rule_cls == Repo`
  becomes an `rid` comparison), `tname` models the class-level `name()`,
  and `ctorRaises` models the constructor: `none` means the constructor
  accepts the keyword arguments, `some e` means it raises `e`.
* External effects (reading and parsing the YAML file, `importlib`) are
  oracle inputs describing their outcome; the loader code downstream of
  them is translated directly.
* `sys.path`, the one piece of process-wide state the loaders touch, is
  threaded explicitly through `PythonPoliciesLoader.get_policies`.
* String literals for diagnostics keep the wording of the source but elide
  the quotation characters around interpolated values.
-/

/-- A parsed YAML document (output of `yaml.safe_load`): scalars,
sequences and string-keyed mappings. -/
inductive Yaml where
  | str (s : String)
  | num (n : Int)
  | bool (b : Bool)
  | null
  | seq (xs : List Yaml)
  | map (kvs : List (String × Yaml))
deriving Repr

/-- Python exceptions that the loader code can raise or propagate. -/
inductive PyErr where
  | fileError (msg : String)       -- `OSError` from `Path.read_text`
  | yamlError (msg : String)       -- `yaml.YAMLError` from `yaml.safe_load`
  | keyError (key : String)        -- `KeyError` from a dict lookup or `dict.pop`
  | typeError (msg : String)       -- `TypeError`
  | attributeError (name : String) -- `AttributeError` from `getattr`
  | otherError (msg : String)      -- any other exception (e.g. `SyntaxError`)
deriving Repr, DecidableEq

/-- A Python rule class.  `rid` stands for the identity of the class
object (distinct classes have distinct `rid`s), `tname` for the value of
the classmethod `name()`, and `ctorRaises kwargs` for the behaviour of
`cls(**kwargs)`: `none` when the constructor accepts the arguments,
`some e` when it raises `e`. -/
structure RuleType where
  rid : Nat
  tname : String
  ctorRaises : List (String × Yaml) → Option PyErr

/-- An instance of a rule class, recorded as the class together with the
keyword arguments it was constructed from (rule internals are external to
this core). -/
structure RuleInst where
  cls : RuleType
  kwargs : List (String × Yaml)

/-- `artifactory_cleanup.rules.Repo`, the distinguished repository-selector
rule class.  It is external to the loader module; only its identity matters
here, so its constructor behaviour is left trivial. -/
def Repo : RuleType :=
  { rid := 0, tname := "repo", ctorRaises := fun _ => none }

/-- What `YamlConfigLoader._build_rule` returns: either a constructed rule
instance or (for a bare `Repo` record) the rule class itself, deferred. -/
inductive BuiltRule where
  | inst (r : RuleInst)
  | deferred (t : RuleType)

/-- `CleanupPolicy` is an external collaborator (`rules.base`); the
embedding records the arguments the loader passes to its constructor:
the policy name and the ordered rule list. -/
structure CleanupPolicy where
  name : Yaml
  rules : List BuiltRule

/-- Update an association list the way assignment updates a Python dict:
replace the value at an existing key in place, else append the pair. -/
def assocUpdate {α : Type} : List (String × α) → String → α → List (String × α)
  | [], k, v => [(k, v)]
  | (k0, v0) :: rest, k, v =>
    if k0 = k then (k, v) :: rest else (k0, v0) :: assocUpdate rest k v

/-- `dict.pop(k)` on an association list: remove the first binding of `k`
and return its value together with the remaining list; `none` when the key
is absent (Python raises `KeyError(k)` there). -/
def assocPop (kvs : List (String × Yaml)) (k : String) :
    Option (Yaml × List (String × Yaml)) :=
  match kvs with
  | [] => none
  | (k0, v0) :: rest =>
    if k0 = k then some (v0, rest)
    else
      match assocPop rest k with
      | some (v, rest2) => some (v, (k0, v0) :: rest2)
      | none => none

/-- The state of a `RuleRegistry`: the `_rules` dict mapping rule names to
rule classes, as an insertion-ordered association list. -/
structure RuleRegistry where
  _rules : List (String × RuleType)

/-- `RuleRegistry.get`: `self._rules[name]` — the stored class, or a
`KeyError` carrying the offending name. -/
def RuleRegistry.get (reg : RuleRegistry) (name : String) :
    Except PyErr RuleType :=
  match reg._rules.lookup name with
  | some t => .ok t
  | none => .error (.keyError name)

/-- `RuleRegistry.register(rule, name=None, warning=False)`.  The
effective name is `name or rule.name()` (Python truthiness: `None` and
the empty string both fall back to `rule.name()`).  If the name is taken
and `warning` is set, the registry is left unchanged and a warning message
is emitted (returned as `some msg`); otherwise the entry is written,
overwriting any previous one. -/
def RuleRegistry.register (reg : RuleRegistry) (rule : RuleType)
    (name : Option String := none) (warning : Bool := false) :
    RuleRegistry × Option String :=
  let n :=
    match name with
    | some s => if s = "" then rule.tname else s
    | none => rule.tname
  if (reg._rules.lookup n).isSome && warning then
    (reg, some ("Rule with a name " ++ n ++ " has been registered before."))
  else
    ({ _rules := assocUpdate reg._rules n rule }, none)

/-- Python subscripting `v[k]` with a string key: a mapping yields the
value or a `KeyError`; a sequence or scalar yields a `TypeError`. -/
def pyIndex (v : Yaml) (k : String) : Except PyErr Yaml :=
  match v with
  | .map kvs =>
    match kvs.lookup k with
    | some x => .ok x
    | none => .error (.keyError k)
  | .seq _ => .error (.typeError "list indices must be integers or slices, not str")
  | _ => .error (.typeError "object is not subscriptable")

/-- Python iteration `for x in v`: a sequence yields its elements, a
mapping yields its keys, a string yields its characters, a scalar raises
`TypeError`. -/
def pyIter (v : Yaml) : Except PyErr (List Yaml) :=
  match v with
  | .seq xs => .ok xs
  | .map kvs => .ok (kvs.map (fun kv => .str kv.fst))
  | .str s => .ok (s.toList.map (fun c => .str c.toString))
  | _ => .error (.typeError "object is not iterable")

/-- Rendering of a YAML scalar used as a failed dict key (the argument a
Python `KeyError` would carry). -/
def yamlKeyRepr : Yaml → String
  | .str s => s
  | .num n => toString n
  | .bool b => toString b
  | .null => "None"
  | .seq _ => "list"
  | .map _ => "dict"

/-- `cls(**kwargs)`: the constructed instance, or the error the rule
constructor raises on these parameters, propagated unchanged (the code
wraps nothing around it). -/
def pyInstantiate (cls : RuleType) (kwargs : List (String × Yaml)) :
    Except PyErr BuiltRule :=
  match cls.ctorRaises kwargs with
  | some e => .error e
  | none => .ok (.inst { cls := cls, kwargs := kwargs })

/-- `YamlConfigLoader._build_rule(rule_data)` against registry `reg`:
pop the `rule` key, resolve it through `registry.get`, defer a bare `Repo`
record, otherwise instantiate the class with the remaining entries as
keyword arguments.  A non-mapping record fails the way `.pop` would in
Python (`AttributeError` on scalars, `TypeError` on a list whose `pop`
rejects a string); a non-string rule name misses the registry dict
(`KeyError`), except for unhashable values (`TypeError`). -/
def YamlConfigLoader.build_rule (reg : RuleRegistry) (rule_data : Yaml) :
    Except PyErr BuiltRule :=
  match rule_data with
  | .map kvs =>
    match assocPop kvs "rule" with
    | none => .error (.keyError "rule")
    | some (rv, rest) =>
      match rv with
      | .str n =>
        match reg.get n with
        | .error e => .error e
        | .ok rule_cls =>
          if rule_cls.rid == Repo.rid && rest.isEmpty then
            .ok (.deferred rule_cls)
          else
            pyInstantiate rule_cls rest
      | .seq _ => .error (.typeError "unhashable type: list")
      | .map _ => .error (.typeError "unhashable type: dict")
      | other => .error (.keyError (yamlKeyRepr other))
  | .seq _ => .error (.typeError "pop expected an int argument, got str")
  | _ => .error (.attributeError "pop")

/-- The inner loop of `YamlConfigLoader.get_policies`: build each rule
record in order, stopping at the first failure. -/
def YamlConfigLoader.build_rule_list (reg : RuleRegistry) :
    List Yaml → Except PyErr (List BuiltRule)
  | [] => .ok []
  | r :: rs =>
    match YamlConfigLoader.build_rule reg r with
    | .error e => .error e
    | .ok b =>
      match YamlConfigLoader.build_rule_list reg rs with
      | .error e => .error e
      | .ok bs => .ok (b :: bs)

/-- One iteration of the outer loop of `YamlConfigLoader.get_policies`:
read `policy_data["name"]`, iterate `policy_data["rules"]`, build the
rules in order and construct the `CleanupPolicy`. -/
def YamlConfigLoader.build_policy (reg : RuleRegistry) (policy_data : Yaml) :
    Except PyErr CleanupPolicy :=
  match pyIndex policy_data "name" with
  | .error e => .error e
  | .ok policy_name =>
    match pyIndex policy_data "rules" with
    | .error e => .error e
    | .ok ruleData =>
      match pyIter ruleData with
      | .error e => .error e
      | .ok ruleRecords =>
        match YamlConfigLoader.build_rule_list reg ruleRecords with
        | .error e => .error e
        | .ok rules => .ok { name := policy_name, rules := rules }

/-- The outer loop of `YamlConfigLoader.get_policies`: process the policy
records in document order, appending to the result list. -/
def YamlConfigLoader.build_policy_list (reg : RuleRegistry) :
    List Yaml → Except PyErr (List CleanupPolicy)
  | [] => .ok []
  | p :: ps =>
    match YamlConfigLoader.build_policy reg p with
    | .error e => .error e
    | .ok pol =>
      match YamlConfigLoader.build_policy_list reg ps with
      | .error e => .error e
      | .ok pols => .ok (pol :: pols)

/-- Outcome of `self.filepath.read_text()` followed by
`yaml.safe_load(...)`, the two external calls opening
`YamlConfigLoader.get_policies`: a parsed document, or the error one of
them raises (`OSError` when the file is absent or unreadable,
`yaml.YAMLError` when the text is not parseable). -/
inductive ReadParse where
  | ok (doc : Yaml)
  | fileErr (msg : String)
  | yamlErr (msg : String)

/-- `YamlConfigLoader.get_policies()`.  The read/parse outcome is an
oracle input; there is no exception handling in the method, so read and
parse errors propagate to the caller unchanged, as does every error
raised while walking `config["artifactory-cleanup"]["policies"]`. -/
def YamlConfigLoader.get_policies (reg : RuleRegistry) (src : ReadParse) :
    Except PyErr (List CleanupPolicy) :=
  match src with
  | .fileErr msg => .error (.fileError msg)
  | .yamlErr msg => .error (.yamlError msg)
  | .ok config =>
    match pyIndex config "artifactory-cleanup" with
    | .error e => .error e
    | .ok section1 =>
      match pyIndex section1 "policies" with
      | .error e => .error e
      | .ok policiesData =>
        match pyIter policiesData with
        | .error e => .error e
        | .ok policyRecords => YamlConfigLoader.build_policy_list reg policyRecords

/-- A value appearing in an extension module: a `CleanupPolicy` instance,
or any other object together with its printed representation. -/
inductive PyVal where
  | policy (p : CleanupPolicy)
  | other (repr : String)

/-- `isinstance(v, CleanupPolicy)`. -/
def isPolicy : PyVal → Bool
  | .policy _ => true
  | .other _ => false

/-- `str(v)`, as used when a non-policy element is interpolated into the
`sys.exit` diagnostic. -/
def pyValStr : PyVal → String
  | .policy _ => "CleanupPolicy"
  | .other r => r

/-- The value of a module attribute named `RULES`: a list (of arbitrary
Python values), or some non-iterable object. -/
inductive RulesAttr where
  | list (xs : List PyVal)
  | nonIterable (repr : String)

/-- A loaded extension module, reduced to the only attribute the loader
reads: `RULES`, when the module defines it. -/
structure PyModule where
  RULES : Option RulesAttr

/-- Outcome of `importlib.import_module(module_name)`, the external call
inside `PythonPoliciesLoader.get_policies`: a module, an `ImportError`
(including `ModuleNotFoundError`), or any other exception the import
machinery can raise while executing the file (e.g. `SyntaxError`). -/
inductive ImportResult where
  | ok (mod : PyModule)
  | importErr (msg : String)
  | otherErr (e : PyErr)

/-- How a call to `PythonPoliciesLoader.get_policies` ends: a returned
value, an exception propagated to the caller, or process termination via
`sys.exit` with an exit status and a printed diagnostic. -/
inductive PyOutcome (α : Type) where
  | ok (a : α)
  | raised (e : PyErr)
  | exited (code : Nat) (diag : String)
deriving DecidableEq

/-- The validation loop of `PythonPoliciesLoader.get_policies`: walk the
elements of `RULES`; at the first element that is not a `CleanupPolicy`,
`sys.exit` with a diagnostic naming it (a string argument to `sys.exit`
is printed and the process exits with status 1); if all pass, return the
`RULES` list itself. -/
def validatePolicies (all : List PyVal) : List PyVal → PyOutcome (List PyVal)
  | [] => .ok all
  | p :: rest =>
    if isPolicy p then validatePolicies all rest
    else .exited 1 ("Policy " ++ pyValStr p ++ " is not CleanupPolicy, check it please")

/-- `PythonPoliciesLoader.get_policies()`.  `sysPath` is the process-wide
`sys.path` list, `dir` the extension file parent directory, `_stem` its
base name, and `imp` the outcome of the dynamic import.  The method
appends `dir` to `sys.path` on every path and never removes it; the
returned state is the final `sys.path`.  Only `ImportError` is caught
(printed as `Error: ...`, then `sys.exit(1)`); a missing `RULES`
attribute makes `getattr` raise `AttributeError`, which propagates, as
does any non-`ImportError` exception from the import and any `TypeError`
from iterating a non-iterable `RULES`. -/
def PythonPoliciesLoader.get_policies (sysPath : List String)
    (dir _stem : String) (imp : ImportResult) :
    List String × PyOutcome (List PyVal) :=
  let sysPath2 := sysPath ++ [dir]
  (sysPath2,
    match imp with
    | .importErr msg => .exited 1 ("Error: " ++ msg)
    | .otherErr e => .raised e
    | .ok mod =>
      match mod.RULES with
      | none => .raised (.attributeError "RULES")
      | some (.nonIterable r) =>
          .raised (.typeError (r ++ " object is not iterable"))
      | some (.list xs) => validatePolicies xs xs)

/-- Writing a key into the dict makes a subsequent lookup of that key
return the written value. -/
theorem lookup_assocUpdate_self {α : Type} (l : List (String × α))
    (k : String) (v : α) : (assocUpdate l k v).lookup k = some v := by
  induction l with
  | nil => simp [assocUpdate]
  | cons hd tl ih =>
    obtain ⟨k0, v0⟩ := hd
    by_cases h : k0 = k
    · subst h
      simp [assocUpdate]
    · have hbeq : (k == k0) = false :=
        beq_eq_false_iff_ne.mpr (fun h2 => h h2.symm)
      simp [assocUpdate, h, List.lookup, hbeq, ih]

/-- A concrete rule class used as a test fixture. -/
def ruleKeep : RuleType :=
  { rid := 1, tname := "keep", ctorRaises := fun _ => none }

/-- A second concrete rule class used as a test fixture. -/
def ruleDel : RuleType :=
  { rid := 2, tname := "delete", ctorRaises := fun _ => none }

/-- A concrete registry holding `ruleKeep` under the name `keep`. -/
def regOne : RuleRegistry := { _rules := [("keep", ruleKeep)] }

/-- C1: if a rule type `T` is registered under name `N`, re-registering a
type `T2` under `N` with `warning = true` leaves the registry unchanged
(`get N` still yields `T`) and emits a warning, while the same call with
`warning = false` overwrites the entry so that `get N` yields `T2` (last
registration wins). -/
theorem C1_register_conflict (reg : RuleRegistry) (T T2 : RuleType)
    (N : String) (hN : N ≠ "") (hT : reg.get N = .ok T) :
    (reg.register T2 (some N) true).fst = reg ∧
    (reg.register T2 (some N) true).fst.get N = .ok T ∧
    ((reg.register T2 (some N) true).snd).isSome = true ∧
    (reg.register T2 (some N) false).fst.get N = .ok T2 := by
  have hlk : reg._rules.lookup N = some T := by
    unfold RuleRegistry.get at hT
    cases h : reg._rules.lookup N <;> rw [h] at hT <;> simp_all
  refine ⟨?_, ?_, ?_, ?_⟩
  · simp [RuleRegistry.register, hN, hlk]
  · simp [RuleRegistry.register, hN, hlk]
    exact hT
  · simp [RuleRegistry.register, hN, hlk]
  · simp [RuleRegistry.register, hN, hlk, RuleRegistry.get,
      lookup_assocUpdate_self]

/-- Witness for C1 at a concrete registry: `ruleKeep` is registered under
`keep`; re-registering `ruleDel` under `keep` behaves as stated. -/
theorem C1_register_conflict_witness :
    ("keep" ≠ "" ∧ regOne.get "keep" = .ok ruleKeep) ∧
    ((regOne.register ruleDel (some "keep") true).fst = regOne ∧
     (regOne.register ruleDel (some "keep") true).fst.get "keep" = .ok ruleKeep ∧
     ((regOne.register ruleDel (some "keep") true).snd).isSome = true ∧
     (regOne.register ruleDel (some "keep") false).fst.get "keep" = .ok ruleDel) :=
  ⟨⟨by decide, rfl⟩,
   C1_register_conflict regOne ruleKeep ruleDel "keep" (by decide) rfl⟩

/-- A concrete rule class whose constructor rejects every argument list,
raising a `TypeError` (fixture for constructor-failure claims). -/
def ruleStrict : RuleType :=
  { rid := 3, tname := "strict",
    ctorRaises := fun _ => some (.typeError "unexpected keyword argument") }

/-- A concrete registry holding `Repo`, `ruleKeep` and `ruleStrict` under
their own names. -/
def regMain : RuleRegistry :=
  { _rules := [("repo", Repo), ("keep", ruleKeep), ("strict", ruleStrict)] }

/-- C2: a rule record that resolves to the repository-selector class
`Repo` and carries no parameters besides the rule name is deferred — the
bare class is stored; a record resolving to `Repo` with extra parameters
is instantiated immediately with those parameters (never deferred). -/
theorem C2_repo_deferral (reg : RuleRegistry)
    (kvs rest : List (String × Yaml)) (n : String)
    (hpop : assocPop kvs "rule" = some (.str n, rest))
    (hget : reg.get n = .ok Repo) :
    (rest = [] →
      YamlConfigLoader.build_rule reg (.map kvs) = .ok (.deferred Repo)) ∧
    (rest ≠ [] →
      YamlConfigLoader.build_rule reg (.map kvs) = pyInstantiate Repo rest ∧
      ∀ t, YamlConfigLoader.build_rule reg (.map kvs) ≠ .ok (.deferred t)) := by
  constructor
  · intro hrest
    subst hrest
    simp [YamlConfigLoader.build_rule, hpop, hget]
  · intro hrest
    have hne : rest.isEmpty = false := by
      cases rest with
      | nil => exact absurd rfl hrest
      | cons a l => rfl
    constructor
    · simp [YamlConfigLoader.build_rule, hpop, hget, hne]
    · intro t
      simp [YamlConfigLoader.build_rule, hpop, hget, hne, pyInstantiate, Repo]

/-- Witness for C2 at a concrete record: `\x7brule: repo\x7d` with no other
entries resolves against `regMain` and is deferred. -/
theorem C2_repo_deferral_witness :
    (assocPop [("rule", Yaml.str "repo")] "rule" = some (.str "repo", []) ∧
     regMain.get "repo" = .ok Repo) ∧
    ((([] : List (String × Yaml)) = [] →
       YamlConfigLoader.build_rule regMain (.map [("rule", .str "repo")]) =
         .ok (.deferred Repo)) ∧
     (([] : List (String × Yaml)) ≠ [] →
       YamlConfigLoader.build_rule regMain (.map [("rule", .str "repo")]) =
         pyInstantiate Repo [] ∧
       ∀ t, YamlConfigLoader.build_rule regMain (.map [("rule", .str "repo")]) ≠
         .ok (.deferred t))) :=
  ⟨⟨rfl, rfl⟩,
   C2_repo_deferral regMain [("rule", .str "repo")] [] "repo" rfl rfl⟩

/-- The spec taxon `DefinitionFormatError`, as realised by the code: the
error kinds surfaced when the structured file is missing, unreadable, or
not parseable — an `OSError` from reading or a `yaml.YAMLError` from
parsing. -/
def isDefinitionFormatError : PyErr → Bool
  | .fileError _ => true
  | .yamlError _ => true
  | _ => false

/-- C4: when reading the definition file fails (file absent or
unreadable) or parsing it fails, `YamlConfigLoader.get_policies` fails
with exactly that error, a `DefinitionFormatError` in the spec taxonomy,
surfaced to the caller unrecovered. -/
theorem C4_definition_format_error (reg : RuleRegistry) (m : String) :
    (YamlConfigLoader.get_policies reg (.fileErr m) = .error (.fileError m) ∧
     isDefinitionFormatError (.fileError m) = true) ∧
    (YamlConfigLoader.get_policies reg (.yamlErr m) = .error (.yamlError m) ∧
     isDefinitionFormatError (.yamlError m) = true) :=
  ⟨⟨rfl, rfl⟩, ⟨rfl, rfl⟩⟩

/-- C5: when a rule record resolves to a class whose constructor rejects
the extracted parameters by raising `e` (and the record is not a deferred
bare `Repo` record, so instantiation is attempted), `_build_rule` fails
with the constructor error `e` surfaced unchanged — the code realisation
of `RuleConstructionError`, carrying the underlying cause. -/
theorem C5_rule_construction_error (reg : RuleRegistry)
    (kvs rest : List (String × Yaml)) (n : String) (cls : RuleType)
    (e : PyErr)
    (hpop : assocPop kvs "rule" = some (.str n, rest))
    (hget : reg.get n = .ok cls)
    (hinst : ¬(cls.rid = Repo.rid ∧ rest = []))
    (hctor : cls.ctorRaises rest = some e) :
    YamlConfigLoader.build_rule reg (.map kvs) = .error e := by
  have hcond : (cls.rid == Repo.rid && rest.isEmpty) = false := by
    cases hrid : cls.rid == Repo.rid with
    | false => rfl
    | true =>
      cases hre : rest.isEmpty with
      | false => rfl
      | true =>
        exact absurd ⟨eq_of_beq hrid,
          List.isEmpty_iff.mp hre⟩ hinst
  simp [YamlConfigLoader.build_rule, hpop, hget, hcond, pyInstantiate, hctor]

/-- Witness for C5: the record `\x7brule: strict, days: 30\x7d` resolves to
`ruleStrict`, whose constructor raises a `TypeError`; `_build_rule`
surfaces that `TypeError`. -/
theorem C5_rule_construction_error_witness :
    (assocPop [("rule", Yaml.str "strict"), ("days", Yaml.num 30)] "rule"
       = some (.str "strict", [("days", Yaml.num 30)]) ∧
     regMain.get "strict" = .ok ruleStrict ∧
     ¬(ruleStrict.rid = Repo.rid ∧ [("days", Yaml.num 30)] = ([] : List (String × Yaml))) ∧
     ruleStrict.ctorRaises [("days", Yaml.num 30)]
       = some (.typeError "unexpected keyword argument")) ∧
    YamlConfigLoader.build_rule regMain
        (.map [("rule", .str "strict"), ("days", .num 30)])
      = .error (.typeError "unexpected keyword argument") :=
  ⟨⟨rfl, rfl, fun h => List.noConfusion h.2, rfl⟩,
   C5_rule_construction_error regMain
     [("rule", .str "strict"), ("days", .num 30)] [("days", .num 30)]
     "strict" ruleStrict (.typeError "unexpected keyword argument")
     rfl rfl (fun h => List.noConfusion h.2) rfl⟩

/-- A rule record whose `rule` entry names an unregistered rule makes
`_build_rule` fail with a `KeyError` carrying exactly that name. -/
theorem build_rule_unknown (reg : RuleRegistry)
    (kvs rest : List (String × Yaml)) (n : String)
    (hpop : assocPop kvs "rule" = some (.str n, rest))
    (hmiss : reg._rules.lookup n = none) :
    YamlConfigLoader.build_rule reg (.map kvs) = .error (.keyError n) := by
  simp [YamlConfigLoader.build_rule, hpop, RuleRegistry.get, hmiss]

/-- If a prefix of the rule records builds successfully and the next
record fails, the inner loop fails with that record's error. -/
theorem build_rule_list_reaches_error (reg : RuleRegistry)
    (pre : List Yaml) (r : Yaml) (post : List Yaml)
    (bs : List BuiltRule) (e : PyErr)
    (hpre : YamlConfigLoader.build_rule_list reg pre = .ok bs)
    (hr : YamlConfigLoader.build_rule reg r = .error e) :
    YamlConfigLoader.build_rule_list reg (pre ++ r :: post) = .error e := by
  induction pre generalizing bs with
  | nil => simp [YamlConfigLoader.build_rule_list, hr]
  | cons x xs ih =>
    unfold YamlConfigLoader.build_rule_list at hpre
    cases hx : YamlConfigLoader.build_rule reg x with
    | error e2 => simp [hx] at hpre
    | ok b =>
      simp [hx] at hpre
      cases hxs : YamlConfigLoader.build_rule_list reg xs with
      | error e2 => simp [hxs] at hpre
      | ok bs2 =>
        simp [List.cons_append, YamlConfigLoader.build_rule_list, hx,
          ih bs2 hxs]

/-- If a prefix of the policy records builds successfully and the next
record fails, the outer loop fails with that record's error. -/
theorem build_policy_list_reaches_error (reg : RuleRegistry)
    (pre : List Yaml) (p : Yaml) (post : List Yaml)
    (pols : List CleanupPolicy) (e : PyErr)
    (hpre : YamlConfigLoader.build_policy_list reg pre = .ok pols)
    (hp : YamlConfigLoader.build_policy reg p = .error e) :
    YamlConfigLoader.build_policy_list reg (pre ++ p :: post) = .error e := by
  induction pre generalizing pols with
  | nil => simp [YamlConfigLoader.build_policy_list, hp]
  | cons x xs ih =>
    unfold YamlConfigLoader.build_policy_list at hpre
    cases hx : YamlConfigLoader.build_policy reg x with
    | error e2 => simp [hx] at hpre
    | ok pol =>
      simp [hx] at hpre
      cases hxs : YamlConfigLoader.build_policy_list reg xs with
      | error e2 => simp [hxs] at hpre
      | ok pols2 =>
        simp [List.cons_append, YamlConfigLoader.build_policy_list, hx,
          ih pols2 hxs]

/-- A failure while building a well-shaped policy record's rules is the
failure of the whole policy record. -/
theorem build_policy_rules_error (reg : RuleRegistry) (nm : Yaml)
    (rs : List Yaml) (e : PyErr)
    (h : YamlConfigLoader.build_rule_list reg rs = .error e) :
    YamlConfigLoader.build_policy reg
      (.map [("name", nm), ("rules", .seq rs)]) = .error e := by
  simp [YamlConfigLoader.build_policy, pyIndex, pyIter, List.lookup, h]

/-- C6: `RuleRegistry.get` on an unregistered name fails with a
`KeyError` (the code realisation of `UnknownRuleError`) carrying exactly
the offending name — and `get` is read-only by construction, returning
only the lookup result and no registry.  Consequently a
structured-definition rule record referencing that name makes
`get_policies` fail with the same `KeyError`, wherever the record sits in
the document (after any earlier successfully built policies and rule
records). -/
theorem C6_unknown_rule (reg : RuleRegistry) (n : String)
    (hmiss : reg._rules.lookup n = none) :
    reg.get n = .error (.keyError n) ∧
    ∀ (psPre psPost pre post : List Yaml) (pols : List CleanupPolicy)
      (bs : List BuiltRule) (kvs rest : List (String × Yaml)) (nm : Yaml),
      YamlConfigLoader.build_policy_list reg psPre = .ok pols →
      YamlConfigLoader.build_rule_list reg pre = .ok bs →
      assocPop kvs "rule" = some (.str n, rest) →
      YamlConfigLoader.get_policies reg (.ok (.map [("artifactory-cleanup",
          .map [("policies", .seq (psPre ++
            (.map [("name", nm),
                   ("rules", .seq (pre ++ .map kvs :: post))]) :: psPost))])]))
        = .error (.keyError n) := by
  constructor
  · simp [RuleRegistry.get, hmiss]
  · intro psPre psPost pre post pols bs kvs rest nm hpols hbs hpop
    have h1 := build_rule_unknown reg kvs rest n hpop hmiss
    have h2 := build_rule_list_reaches_error reg pre (.map kvs) post bs _ hbs h1
    have h3 := build_policy_rules_error reg nm _ _ h2
    have h4 := build_policy_list_reaches_error reg psPre _ psPost pols _ hpols h3
    simp [YamlConfigLoader.get_policies, pyIndex, pyIter, List.lookup, h4]

/-- Witness for C6: `nope` is not registered in `regMain`; `get` fails
with `KeyError nope`, and so does `get_policies` on a document whose only
rule record references `nope`. -/
theorem C6_unknown_rule_witness :
    regMain._rules.lookup "nope" = none ∧
    regMain.get "nope" = .error (.keyError "nope") ∧
    YamlConfigLoader.get_policies regMain (.ok (.map [("artifactory-cleanup",
        .map [("policies", .seq [.map [("name", .str "p"),
          ("rules", .seq [.map [("rule", .str "nope")]])]])])]))
      = .error (.keyError "nope") :=
  ⟨rfl, (C6_unknown_rule regMain "nope" rfl).1,
   (C6_unknown_rule regMain "nope" rfl).2 [] [] [] [] [] []
     [("rule", .str "nope")] [] (.str "p") rfl rfl rfl⟩

/-- `pol` is built from the policy record `p`: its name is the record's
`name` entry and its rules arise, in order and one-for-one, from the
record's rule records. -/
def PolicyFromRecord (reg : RuleRegistry) (p : Yaml) (pol : CleanupPolicy) :
    Prop :=
  pyIndex p "name" = .ok pol.name ∧
  ∃ rv records, pyIndex p "rules" = .ok rv ∧ pyIter rv = .ok records ∧
    List.Forall₂ (fun r b => YamlConfigLoader.build_rule reg r = .ok b)
      records pol.rules

/-- A successful inner loop pairs rule records with built rules
one-for-one, in order. -/
theorem build_rule_list_forall2 (reg : RuleRegistry) (rs : List Yaml)
    (bs : List BuiltRule)
    (h : YamlConfigLoader.build_rule_list reg rs = .ok bs) :
    List.Forall₂ (fun r b => YamlConfigLoader.build_rule reg r = .ok b)
      rs bs := by
  induction rs generalizing bs with
  | nil =>
    unfold YamlConfigLoader.build_rule_list at h
    simp at h
    subst h
    exact List.Forall₂.nil
  | cons r rs ih =>
    unfold YamlConfigLoader.build_rule_list at h
    cases hr : YamlConfigLoader.build_rule reg r with
    | error e => simp [hr] at h
    | ok b =>
      simp [hr] at h
      cases hrs : YamlConfigLoader.build_rule_list reg rs with
      | error e => simp [hrs] at h
      | ok bs2 =>
        simp [hrs] at h
        subst h
        exact List.Forall₂.cons hr (ih bs2 hrs)

/-- A successfully built policy is built from its record. -/
theorem build_policy_from_record (reg : RuleRegistry) (p : Yaml)
    (pol : CleanupPolicy)
    (h : YamlConfigLoader.build_policy reg p = .ok pol) :
    PolicyFromRecord reg p pol := by
  unfold YamlConfigLoader.build_policy at h
  cases h1 : pyIndex p "name" with
  | error e => simp [h1] at h
  | ok nm =>
    simp [h1] at h
    cases h2 : pyIndex p "rules" with
    | error e => simp [h2] at h
    | ok rv =>
      simp [h2] at h
      cases h3 : pyIter rv with
      | error e => simp [h3] at h
      | ok records =>
        simp [h3] at h
        cases h4 : YamlConfigLoader.build_rule_list reg records with
        | error e => simp [h4] at h
        | ok rules =>
          simp [h4] at h
          subst h
          exact ⟨h1, rv, records, h2, h3,
            build_rule_list_forall2 reg records rules h4⟩

/-- A successful outer loop pairs policy records with built policies
one-for-one, in order. -/
theorem build_policy_list_forall2 (reg : RuleRegistry) (ps : List Yaml)
    (pols : List CleanupPolicy)
    (h : YamlConfigLoader.build_policy_list reg ps = .ok pols) :
    List.Forall₂ (PolicyFromRecord reg) ps pols := by
  induction ps generalizing pols with
  | nil =>
    unfold YamlConfigLoader.build_policy_list at h
    simp at h
    subst h
    exact List.Forall₂.nil
  | cons p ps ih =>
    unfold YamlConfigLoader.build_policy_list at h
    cases hp : YamlConfigLoader.build_policy reg p with
    | error e => simp [hp] at h
    | ok pol =>
      simp [hp] at h
      cases hps : YamlConfigLoader.build_policy_list reg ps with
      | error e => simp [hps] at h
      | ok pols2 =>
        simp [hps] at h
        subst h
        exact List.Forall₂.cons (build_policy_from_record reg p pol hp)
          (ih pols2 hps)

/-- C7: on a well-formed document, `get_policies` returns one policy per
policy record, in document order, each policy built from its own record
with rules in record order (`List.Forall₂` pairs the lists positionally). -/
theorem C7_order_preserved (reg : RuleRegistry) (ps : List Yaml)
    (pols : List CleanupPolicy)
    (h : YamlConfigLoader.get_policies reg (.ok (.map [("artifactory-cleanup",
          .map [("policies", .seq ps)])])) = .ok pols) :
    List.Forall₂ (PolicyFromRecord reg) ps pols := by
  simp [YamlConfigLoader.get_policies, pyIndex, pyIter, List.lookup] at h
  exact build_policy_list_forall2 reg ps pols h

/-- Witness for C7 at a concrete two-policy document processed against
`regMain`. -/
theorem C7_order_preserved_witness :
    YamlConfigLoader.get_policies regMain (.ok (.map [("artifactory-cleanup",
        .map [("policies", .seq [
          .map [("name", .str "p1"),
                ("rules", .seq [.map [("rule", .str "repo")]])],
          .map [("name", .str "p2"),
                ("rules", .seq [.map [("rule", .str "keep")]])]])])]))
      = .ok [{ name := .str "p1", rules := [.deferred Repo] },
             { name := .str "p2",
               rules := [.inst { cls := ruleKeep, kwargs := [] }] }] ∧
    List.Forall₂ (PolicyFromRecord regMain)
      [.map [("name", .str "p1"),
             ("rules", .seq [.map [("rule", .str "repo")]])],
       .map [("name", .str "p2"),
             ("rules", .seq [.map [("rule", .str "keep")]])]]
      [{ name := .str "p1", rules := [.deferred Repo] },
       { name := .str "p2",
         rules := [.inst { cls := ruleKeep, kwargs := [] }] }] :=
  ⟨rfl,
   C7_order_preserved regMain
     [.map [("name", .str "p1"),
            ("rules", .seq [.map [("rule", .str "repo")]])],
      .map [("name", .str "p2"),
            ("rules", .seq [.map [("rule", .str "keep")]])]]
     [{ name := .str "p1", rules := [.deferred Repo] },
      { name := .str "p2",
        rules := [.inst { cls := ruleKeep, kwargs := [] }] }]
     rfl⟩

/-- If every element is a policy, the validation loop returns the full
`RULES` list unchanged. -/
theorem validatePolicies_ok (all xs : List PyVal)
    (h : ∀ p ∈ xs, isPolicy p = true) : validatePolicies all xs = .ok all := by
  induction xs with
  | nil => rfl
  | cons p rest ih =>
    have hp : isPolicy p = true := h p (List.mem_cons_self p rest)
    simp [validatePolicies, hp]
    exact ih (fun q hq => h q (List.mem_cons_of_mem p hq))

/-- The validation loop exits at the first non-policy element, naming it
in the diagnostic. -/
theorem validatePolicies_exit (all good : List PyVal) (bad : PyVal)
    (rest : List PyVal) (hg : ∀ p ∈ good, isPolicy p = true)
    (hb : isPolicy bad = false) :
    validatePolicies all (good ++ bad :: rest)
      = .exited 1 ("Policy " ++ pyValStr bad ++
          " is not CleanupPolicy, check it please") := by
  induction good with
  | nil => simp [validatePolicies, hb]
  | cons p tl ih =>
    have hp : isPolicy p = true := hg p (List.mem_cons_self p tl)
    simp [validatePolicies, hp]
    exact ih (fun q hq => hg q (List.mem_cons_of_mem p hq))

/-- C8: on an extension module whose `RULES` is a list of
`CleanupPolicy` instances, `get_policies` returns that list unchanged
(same elements, same order); if some element is not a policy, the call
ends in `sys.exit` with status 1 and a diagnostic naming the first
offending element, before returning. -/
theorem C8_rules_validation (sysPath : List String) (dir stem : String)
    (xs : List PyVal) :
    ((∀ p ∈ xs, isPolicy p = true) →
      (PythonPoliciesLoader.get_policies sysPath dir stem
          (.ok { RULES := some (.list xs) })).snd = .ok xs) ∧
    (∀ good bad rest, xs = good ++ bad :: rest →
      (∀ p ∈ good, isPolicy p = true) → isPolicy bad = false →
      (PythonPoliciesLoader.get_policies sysPath dir stem
          (.ok { RULES := some (.list xs) })).snd
        = .exited 1 ("Policy " ++ pyValStr bad ++
            " is not CleanupPolicy, check it please")) := by
  constructor
  · intro h
    simp [PythonPoliciesLoader.get_policies]
    exact validatePolicies_ok xs xs h
  · intro good bad rest hsplit hg hb
    subst hsplit
    simp [PythonPoliciesLoader.get_policies]
    exact validatePolicies_exit (good ++ bad :: rest) good bad rest hg hb

/-- A concrete policy value used as a fixture in extension-loader
witnesses. -/
def polFixture : CleanupPolicy := { name := .str "p", rules := [] }

/-- Witness for C8: a well-typed `RULES` list is returned unchanged, and
a list whose second element is the integer `42` makes the process exit
with status 1 naming `42`. -/
theorem C8_rules_validation_witness :
    (PythonPoliciesLoader.get_policies [] "/ext" "policies"
        (.ok { RULES := some (.list [.policy polFixture]) })).snd
      = .ok [.policy polFixture] ∧
    (PythonPoliciesLoader.get_policies [] "/ext" "policies"
        (.ok { RULES := some (.list [.policy polFixture, .other "42"]) })).snd
      = .exited 1 ("Policy " ++ pyValStr (.other "42") ++
          " is not CleanupPolicy, check it please") :=
  ⟨(C8_rules_validation [] "/ext" "policies" [.policy polFixture]).1
     (by intro p hp; cases hp with
       | head => rfl
       | tail _ h => cases h),
   (C8_rules_validation [] "/ext" "policies"
       [.policy polFixture, .other "42"]).2 [.policy polFixture]
     (.other "42") [] rfl
     (by intro p hp; cases hp with
       | head => rfl
       | tail _ h => cases h)
     rfl⟩

/-- C3 counterexample: with the dynamic import succeeding but the module
lacking a `RULES` attribute — one of the failures the claim covers — the
extension loader does not exit: `getattr` raises `AttributeError`, which
is not caught by `except ImportError` and propagates to the caller. -/
theorem C3_counterexample :
    (PythonPoliciesLoader.get_policies [] "/ext" "policies"
        (.ok { RULES := none })).snd = .raised (.attributeError "RULES") ∧
    ∀ c d, (PythonPoliciesLoader.get_policies [] "/ext" "policies"
        (.ok { RULES := none })).snd ≠ .exited c d :=
  ⟨rfl, fun _ _ h => PyOutcome.noConfusion h⟩

/-- C3 amended: only an `ImportError` from the dynamic import makes the
process exit (status 1, printing the import error); every other failure
of the extension loader propagates as an exception to the caller — a
non-`ImportError` exception from the import, an `AttributeError` for an
absent `RULES` symbol, and a `TypeError` for a non-iterable `RULES`. -/
theorem C3_import_error_behaviour (sysPath : List String)
    (dir stem : String) (imp : ImportResult) :
    (∀ msg, imp = .importErr msg →
      (PythonPoliciesLoader.get_policies sysPath dir stem imp).snd
        = .exited 1 ("Error: " ++ msg)) ∧
    (∀ e, imp = .otherErr e →
      (PythonPoliciesLoader.get_policies sysPath dir stem imp).snd
        = .raised e) ∧
    (∀ mod, imp = .ok mod → mod.RULES = none →
      (PythonPoliciesLoader.get_policies sysPath dir stem imp).snd
        = .raised (.attributeError "RULES")) ∧
    (∀ mod r, imp = .ok mod → mod.RULES = some (.nonIterable r) →
      (PythonPoliciesLoader.get_policies sysPath dir stem imp).snd
        = .raised (.typeError (r ++ " object is not iterable"))) := by
  refine ⟨?_, ?_, ?_, ?_⟩
  · intro msg h
    subst h
    rfl
  · intro e h
    subst h
    rfl
  · intro mod h hr
    subst h
    simp [PythonPoliciesLoader.get_policies, hr]
  · intro mod r h hr
    subst h
    simp [PythonPoliciesLoader.get_policies, hr]

/-- Witness for the amended C3: a failing import reported as
`ImportError` exits with status 1 and the printed diagnostic. -/
theorem C3_import_error_behaviour_witness :
    (PythonPoliciesLoader.get_policies [] "/ext" "policies"
        (.importErr "No module named policies")).snd
      = .exited 1 ("Error: " ++ "No module named policies") :=
  (C3_import_error_behaviour [] "/ext" "policies"
      (.importErr "No module named policies")).1
    "No module named policies" rfl

/-- C9 counterexample: even on a fully successful extension-loader call,
the process-wide module search path has gained the extension directory
after `get_policies` returns — the acquired search-path entry is not
released. -/
theorem C9_counterexample :
    (PythonPoliciesLoader.get_policies [] "/ext" "policies"
        (.ok { RULES := some (.list []) })).fst = ["/ext"] ∧
    (["/ext"] : List String) ≠ [] ∧
    (PythonPoliciesLoader.get_policies [] "/ext" "policies"
        (.ok { RULES := some (.list []) })).snd = .ok [] :=
  ⟨rfl, by decide, rfl⟩

/-- C9 amended: the extension loader appends the extension file's
directory to the process-wide module search path and removes it on no
exit path: whatever the import outcome, the final `sys.path` is the
initial one with the directory appended.  (The structured loader touches
no process-wide state in the embedding.) -/
theorem C9_sys_path_leak (sysPath : List String) (dir stem : String)
    (imp : ImportResult) :
    (PythonPoliciesLoader.get_policies sysPath dir stem imp).fst
      = sysPath ++ [dir] := rfl

/-- C10: when the document parses but lacks an expected key — the
top-level `artifactory-cleanup` mapping, its `policies` entry, a policy
record's `name` or `rules` entry, or a rule record's `rule` entry — the
loader fails with the plain `KeyError` for that key (from the dict lookup
or `dict.pop`), not with a read/parse error and not with a rule
constructor error. -/
theorem C10_missing_keys (reg : RuleRegistry) :
    (∀ kvs, kvs.lookup "artifactory-cleanup" = none →
      YamlConfigLoader.get_policies reg (.ok (.map kvs))
        = .error (.keyError "artifactory-cleanup")) ∧
    (∀ kvs kvs2, kvs.lookup "artifactory-cleanup" = some (.map kvs2) →
      kvs2.lookup "policies" = none →
      YamlConfigLoader.get_policies reg (.ok (.map kvs))
        = .error (.keyError "policies")) ∧
    (∀ kvs3 ps, kvs3.lookup "name" = none →
      YamlConfigLoader.get_policies reg (.ok (.map [("artifactory-cleanup",
          .map [("policies", .seq (.map kvs3 :: ps))])]))
        = .error (.keyError "name")) ∧
    (∀ kvs3 nm ps, kvs3.lookup "name" = some nm →
      kvs3.lookup "rules" = none →
      YamlConfigLoader.get_policies reg (.ok (.map [("artifactory-cleanup",
          .map [("policies", .seq (.map kvs3 :: ps))])]))
        = .error (.keyError "rules")) ∧
    (∀ kvs4 rrs nm ps, assocPop kvs4 "rule" = none →
      YamlConfigLoader.get_policies reg (.ok (.map [("artifactory-cleanup",
          .map [("policies", .seq (.map [("name", nm),
            ("rules", .seq (.map kvs4 :: rrs))] :: ps))])]))
        = .error (.keyError "rule")) := by
  refine ⟨?_, ?_, ?_, ?_, ?_⟩
  · intro kvs h
    simp [YamlConfigLoader.get_policies, pyIndex, h]
  · intro kvs kvs2 h1 h2
    simp [YamlConfigLoader.get_policies, pyIndex, h1, h2]
  · intro kvs3 ps h
    simp [YamlConfigLoader.get_policies, pyIndex, pyIter, List.lookup,
      YamlConfigLoader.build_policy_list, YamlConfigLoader.build_policy, h]
  · intro kvs3 nm ps h1 h2
    simp [YamlConfigLoader.get_policies, pyIndex, pyIter, List.lookup,
      YamlConfigLoader.build_policy_list, YamlConfigLoader.build_policy,
      h1, h2]
  · intro kvs4 rrs nm ps h
    simp [YamlConfigLoader.get_policies, pyIndex, pyIter, List.lookup,
      YamlConfigLoader.build_policy_list, YamlConfigLoader.build_policy,
      YamlConfigLoader.build_rule_list, YamlConfigLoader.build_rule, h]

/-- Witness for C10: each missing-key shape at a concrete document
against `regMain`. -/
theorem C10_missing_keys_witness :
    YamlConfigLoader.get_policies regMain (.ok (.map []))
      = .error (.keyError "artifactory-cleanup") ∧
    YamlConfigLoader.get_policies regMain
        (.ok (.map [("artifactory-cleanup", .map [])]))
      = .error (.keyError "policies") ∧
    YamlConfigLoader.get_policies regMain (.ok (.map [("artifactory-cleanup",
        .map [("policies", .seq [.map []])])]))
      = .error (.keyError "name") ∧
    YamlConfigLoader.get_policies regMain (.ok (.map [("artifactory-cleanup",
        .map [("policies", .seq [.map [("name", .str "p")]])])]))
      = .error (.keyError "rules") ∧
    YamlConfigLoader.get_policies regMain (.ok (.map [("artifactory-cleanup",
        .map [("policies", .seq [.map [("name", .str "p"),
          ("rules", .seq [.map []])]])])]))
      = .error (.keyError "rule") :=
  ⟨(C10_missing_keys regMain).1 [] rfl,
   (C10_missing_keys regMain).2.1 [("artifactory-cleanup", .map [])] [] rfl rfl,
   (C10_missing_keys regMain).2.2.1 [] [] rfl,
   (C10_missing_keys regMain).2.2.2.1 [("name", .str "p")] (.str "p") [] rfl rfl,
   (C10_missing_keys regMain).2.2.2.2 [] [] (.str "p") [] rfl⟩
